import Mathlib

/-!
Shallow embedding of the booking API test framework
(models/booking.py, services/base_client.py, services/booking_service.py,
utils/validators.py, utils/test_data.py, config/settings.py).

JSON values exchanged by this code are flat objects whose nested objects
(the `bookingdates` sub-dictionary) hold only primitive values, so JSON is
modelled in two levels: `JPrim` for primitive values and `JValue` for a
value that may additionally be a one-level object.  A Python dict is an
association list with unique keys; dict indexing is first-match lookup.
Python exceptions are modelled with `Except PyErr`; a function that cannot
raise is total.
-/

/-- JSON primitive values (Python str, int, bool, None). -/
inductive JPrim where
  | str : String → JPrim
  | int : Int → JPrim
  | bool : Bool → JPrim
  | null : JPrim
deriving DecidableEq, Repr

/-- A JSON value appearing inside a booking-shaped object: a primitive or a
one-level nested object of primitives (the `bookingdates` sub-dictionary). -/
inductive JValue where
  | prim : JPrim → JValue
  | obj : List (String × JPrim) → JValue
deriving DecidableEq, Repr

/-- A JSON object / Python dict, as an association list (keys unique). -/
def JDict := List (String × JValue)

/-- Python exceptions distinguished by this development. -/
inductive PyErr where
  | assertionError : String → PyErr
  | keyError : String → PyErr
  | typeError : String → PyErr
deriving DecidableEq, Repr

/-- Dict lookup: first binding of the key, `d.get(k)`-style (`none` = absent). -/
def alookup {α : Type} (m : List (String × α)) (k : String) : Option α :=
  (m.find? (fun p => p.1 == k)).map Prod.snd

/-- Python `==` on primitives: `bool` is an `int` subtype, so
`True == 1` and `False == 0`; values of unrelated types compare unequal. -/
def pyEqPrim : JPrim → JPrim → Bool
  | .str a, .str b => a == b
  | .int a, .int b => a == b
  | .bool a, .bool b => a == b
  | .int a, .bool b => a == (if b then 1 else 0)
  | .bool a, .int b => (if a then (1 : Int) else 0) == b
  | .null, .null => true
  | _, _ => false

/-- Python `==` on one-level objects: dict equality is key-set based
(order-insensitive), comparing values with `pyEqPrim`. -/
def pyEqObj (a b : List (String × JPrim)) : Bool :=
  a.length == b.length &&
    a.all (fun p => match alookup b p.1 with
      | some q => pyEqPrim p.2 q
      | none => false)

/-- Python `==` on `JValue`s. -/
def pyEqVal : JValue → JValue → Bool
  | .prim a, .prim b => pyEqPrim a b
  | .obj a, .obj b => pyEqObj a b
  | _, _ => false

/-- Python `str()` of a primitive, as used by f-string interpolation. -/
def pyStrPrim : JPrim → String
  | .str s => s
  | .int n => toString n
  | .bool b => if b then "True" else "False"
  | .null => "None"

/-- Python `repr()` of a primitive, as used when a dict is stringified. -/
def pyReprPrim : JPrim → String
  | .str s => "\x27" ++ s ++ "\x27"
  | .int n => toString n
  | .bool b => if b then "True" else "False"
  | .null => "None"

/-- Python `str()` of a `JValue` (objects print as Python dicts). -/
def pyStrVal : JValue → String
  | .prim p => pyStrPrim p
  | .obj l =>
    "\x7b" ++
      String.intercalate ", "
        (l.map (fun p => "\x27" ++ p.1 ++ "\x27: " ++ pyReprPrim p.2)) ++
    "\x7d"

/-- Python truthiness of a `JValue` (`bool(v)`). -/
def jTruthy : JValue → Bool
  | .prim (.str s) => !(s == "")
  | .prim (.int n) => !(n == 0)
  | .prim (.bool b) => b
  | .prim .null => false
  | .obj l => !l.isEmpty

/-- Python `str()` of an `Optional` value (`None` prints as `"None"`). -/
def pyStrOpt : Option JValue → String
  | none => "None"
  | some v => pyStrVal v

/-- `sub in s` for Python strings: substring containment. -/
def strIn (sub s : String) : Prop := List.IsInfix sub.data s.data

instance (sub s : String) : Decidable (strIn sub s) :=
  inferInstanceAs (Decidable (List.IsInfix sub.data s.data))

/-! ## models/booking.py -/

/-- `BookingDates`: check-in and check-out dates for a booking. -/
structure BookingDates where
  checkin : String
  checkout : String
deriving DecidableEq, Repr

/-- `Booking`: representation of a booking payload. -/
structure Booking where
  firstname : String
  lastname : String
  totalprice : Int
  depositpaid : Bool
  bookingdates : BookingDates
  additionalneeds : Option String := none
deriving DecidableEq, Repr

/-- `Booking.to_dict`: serialize a `Booking` to its wire dictionary; the
`additionalneeds` key is appended only when the field is set. -/
def Booking.to_dict (b : Booking) : JDict :=
  [("firstname", .prim (.str b.firstname)),
   ("lastname", .prim (.str b.lastname)),
   ("totalprice", .prim (.int b.totalprice)),
   ("depositpaid", .prim (.bool b.depositpaid)),
   ("bookingdates", .obj
      [("checkin", .str b.bookingdates.checkin),
       ("checkout", .str b.bookingdates.checkout)])] ++
  (match b.additionalneeds with
   | some s => [("additionalneeds", JValue.prim (.str s))]
   | none => [])

/-! ## utils/validators.py -/

/-- Python `d[k]` on a dict: the value, or a `KeyError` when absent. -/
def pyIndex {α : Type} (m : List (String × α)) (k : String) : Except PyErr α :=
  match alookup m k with
  | some v => .ok v
  | none => .error (.keyError k)

/-- `booking_data["bookingdates"][date_key]`: index the top-level dict, then
index the resulting value with a string key.  Indexing a primitive with a
string key is a `TypeError` in Python. -/
def pyIndexDates (booking_data : JDict) (date_key : String) :
    Except PyErr JPrim := do
  let v ← pyIndex booking_data "bookingdates"
  match v with
  | .obj dates => pyIndex dates date_key
  | .prim _ => .error (.typeError "value is not subscriptable by a string")

/-- The assertion message of the `bookingdates` branch of
`assert_booking_fields`. -/
def datesMismatchMsg (date_key : String) (date_val actual : JPrim) : String :=
  "Expected bookingdates." ++ date_key ++ " = \x27" ++ pyStrPrim date_val ++
    "\x27, got \x27" ++ pyStrPrim actual ++ "\x27"

/-- The assertion message of the general branch of `assert_booking_fields`. -/
def fieldMismatchMsg (key : String) (value actual : JValue) : String :=
  "Expected \x27" ++ key ++ "\x27 = \x27" ++ pyStrVal value ++
    "\x27, got \x27" ++ pyStrVal actual ++ "\x27"

/-- The inner loop of `assert_booking_fields` for `key == "bookingdates"`:
compare `booking_data["bookingdates"][date_key]` with each expected date. -/
def assertDates (booking_data : JDict) :
    List (String × JPrim) → Except PyErr Unit
  | [] => .ok ()
  | (date_key, date_val) :: rest => do
    let actual ← pyIndexDates booking_data date_key
    if pyEqPrim actual date_val then
      assertDates booking_data rest
    else
      .error (.assertionError (datesMismatchMsg date_key date_val actual))

/-- `assert_booking_fields(booking_data, expected)`: for each expected item,
compare the nested dates per date key when the key is `"bookingdates"`, and
compare `booking_data[key]` with the value otherwise; raise `AssertionError`
on the first mismatch.  An expected `bookingdates` value that is not a dict
has no `.items()`; Python raises there, modelled as a `TypeError`. -/
def assert_booking_fields (booking_data : JDict) :
    List (String × JValue) → Except PyErr Unit
  | [] => .ok ()
  | (key, value) :: rest =>
    if key = "bookingdates" then
      match value with
      | .obj dates => do
        assertDates booking_data dates
        assert_booking_fields booking_data rest
      | .prim _ => .error (.typeError "value has no attribute items")
    else do
      let actual ← pyIndex booking_data key
      if pyEqVal actual value then
        assert_booking_fields booking_data rest
      else
        .error (.assertionError (fieldMismatchMsg key value actual))

/-- `assert_response_time(response, max_seconds)`: assert the elapsed time is
under the threshold.  Elapsed wall-clock seconds are modelled as a rational. -/
def assert_response_time (elapsed max_seconds : ℚ) : Except PyErr Unit :=
  if elapsed < max_seconds then .ok ()
  else .error (.assertionError
    ("Response took " ++ toString elapsed ++ "s, exceeding " ++
      toString max_seconds ++ "s threshold"))

/-- `assert_response_time(response)` with the `max_seconds` parameter left at
its default of `5.0`. -/
def assert_response_time_default (elapsed : ℚ) : Except PyErr Unit :=
  assert_response_time elapsed 5

/-- Case-insensitive header lookup, as the `CaseInsensitiveDict` of
`requests`
performs for `response.headers.get(...)`. -/
def headersGet (headers : List (String × String)) (k : String) :
    Option String :=
  (headers.find? (fun p => p.1.toLower == k.toLower)).map Prod.snd

/-- `assert_content_type(response, expected)`: substring check of the expected
value against the `Content-Type` header, absent header read as `""`. -/
def assert_content_type (headers : List (String × String))
    (expected : String) : Except PyErr Unit :=
  let content_type := (headersGet headers "Content-Type").getD ""
  if strIn expected content_type then .ok ()
  else .error (.assertionError
    ("Expected Content-Type \x27" ++ expected ++ "\x27, got \x27" ++
      content_type ++ "\x27"))

/-! ## config/settings.py -/

namespace APIConfig

/-- `APIConfig.AUTH_USERNAME` (the value with no environment override). -/
def AUTH_USERNAME : String := "admin"

/-- `APIConfig.AUTH_PASSWORD` (the value with no environment override). -/
def AUTH_PASSWORD : String := "password123"

end APIConfig

/-! ## services/base_client.py and the HTTP layer

A request is the data the base client hands to the `requests` session:
method, endpoint path, optional JSON body (a dict in every call this
code makes), optional query parameters and optional per-call headers.
The network is an environment mapping each request to the response the
remote service produces; every base-client verb builds its request and
returns that response unchanged.  Response JSON bodies touched by the
claims are JSON objects, modelled as dicts. -/

/-- The data of one HTTP request as issued by `BaseAPIClient`. -/
structure Request where
  method : String
  path : String
  body : Option JDict
  params : Option (List (String × String))
  headers : Option (List (String × String))

/-- A response as exposed by the HTTP layer: status code, JSON body,
elapsed wall-clock seconds (as a rational) and response headers. -/
structure Response where
  status_code : Int
  jsonBody : JDict
  elapsed : ℚ
  headers : List (String × String)

/-- The remote service: what response each request receives. -/
structure HttpEnv where
  exec : Request → Response

/-! ## services/booking_service.py -/

/-- The mutable state of a `BookingService` instance: the cached token
(`self._token`), `None` until `authenticate` stores the token of the
`token` field. -/
structure ServiceState where
  token : Option JValue
deriving Repr

/-- Python `username or APIConfig.AUTH_USERNAME`: the argument when it is
truthy (present and non-empty), the configured default otherwise. -/
def orDefault (arg : Option String) (dflt : String) : String :=
  match arg with
  | none => dflt
  | some s => if s = "" then dflt else s

/-- The POST request `authenticate` sends to `/auth`. -/
def authRequest (username password : Option String) : Request :=
  { method := "POST"
    path := "/auth"
    body := some
      [("username", .prim (.str (orDefault username APIConfig.AUTH_USERNAME))),
       ("password", .prim (.str (orDefault password APIConfig.AUTH_PASSWORD)))]
    params := none
    headers := none }

/-- `BookingService.authenticate`: post the credentials, cache
`response.json().get("token")` and return it. -/
def authenticate (env : HttpEnv) (s : ServiceState)
    (username password : Option String) : ServiceState × Option JValue :=
  let response := env.exec (authRequest username password)
  let token := alookup response.jsonBody "token"
  ({ s with token := token }, token)

/-- The header map `{"Cookie": f"token={self._token}"}`. -/
def cookieHeader (token : Option JValue) : List (String × String) :=
  [("Cookie", "token=" ++ pyStrOpt token)]

/-- `BookingService.auth_headers`: authenticate first when the cached token
is falsy, then return the cookie header built from the cached token.
Returns the post-read state alongside the headers. -/
def auth_headers (env : HttpEnv) (s : ServiceState) :
    ServiceState × List (String × String) :=
  let s2 := if s.token.elim false jTruthy then s
            else (authenticate env s none none).1
  (s2, cookieHeader s2.token)

/-- One `if <arg>: params[<name>] = <arg>` step of `get_booking_ids`: the
binding is added exactly when the argument is truthy (present, non-empty). -/
def filterParam (name : String) (arg : Option String) :
    List (String × String) :=
  match arg with
  | some s => if s = "" then [] else [(name, s)]
  | none => []

/-- The query-parameter dict built by `get_booking_ids`, in insertion
order. -/
def bookingIdsParams (firstname lastname checkin checkout : Option String) :
    List (String × String) :=
  filterParam "firstname" firstname ++ filterParam "lastname" lastname ++
    filterParam "checkin" checkin ++ filterParam "checkout" checkout

/-- `BookingService.get_booking_ids`: GET `/booking` with the filtered
query parameters and no per-call headers. -/
def get_booking_ids (env : HttpEnv)
    (firstname lastname checkin checkout : Option String) : Response :=
  env.exec
    { method := "GET"
      path := "/booking"
      body := none
      params := some (bookingIdsParams firstname lastname checkin checkout)
      headers := none }

/-- The GET request sent by `get_booking`. -/
def getBookingRequest (booking_id : Int) : Request :=
  { method := "GET"
    path := "/booking/" ++ toString booking_id
    body := none
    params := none
    headers := none }

/-- `BookingService.get_booking`: GET `/booking/{id}`, no headers. -/
def get_booking (env : HttpEnv) (booking_id : Int) : Response :=
  env.exec (getBookingRequest booking_id)

/-- The POST request sent by `create_booking`. -/
def createBookingRequest (booking : Booking) : Request :=
  { method := "POST"
    path := "/booking"
    body := some booking.to_dict
    params := none
    headers := none }

/-- `BookingService.create_booking`: POST the serialized booking, no
headers. -/
def create_booking (env : HttpEnv) (booking : Booking) : Response :=
  env.exec (createBookingRequest booking)

/-- The PUT request sent by `update_booking`. -/
def updateBookingRequest (booking_id : Int) (booking : Booking)
    (hdrs : List (String × String)) : Request :=
  { method := "PUT"
    path := "/booking/" ++ toString booking_id
    body := some booking.to_dict
    params := none
    headers := some hdrs }

/-- `BookingService.update_booking`: PUT the serialized booking with the
auth headers; reading `auth_headers` may authenticate as a side effect, so
the post-read state is returned alongside the response. -/
def update_booking (env : HttpEnv) (s : ServiceState) (booking_id : Int)
    (booking : Booking) : ServiceState × Response :=
  let (s2, hdrs) := auth_headers env s
  (s2, env.exec (updateBookingRequest booking_id booking hdrs))

/-- The PATCH request sent by `partial_update_booking`. -/
def patchBookingRequest (booking_id : Int) (data : JDict)
    (hdrs : List (String × String)) : Request :=
  { method := "PATCH"
    path := "/booking/" ++ toString booking_id
    body := some data
    params := none
    headers := some hdrs }

/-- `BookingService.partial_update_booking`: PATCH the field subset with the
auth headers. -/
def partial_update_booking (env : HttpEnv) (s : ServiceState)
    (booking_id : Int) (data : JDict) : ServiceState × Response :=
  let (s2, hdrs) := auth_headers env s
  (s2, env.exec (patchBookingRequest booking_id data hdrs))

/-- The DELETE request sent by `delete_booking`. -/
def deleteBookingRequest (booking_id : Int)
    (hdrs : List (String × String)) : Request :=
  { method := "DELETE"
    path := "/booking/" ++ toString booking_id
    body := none
    params := none
    headers := some hdrs }

/-- `BookingService.delete_booking`: DELETE by id with the auth headers. -/
def delete_booking (env : HttpEnv) (s : ServiceState) (booking_id : Int) :
    ServiceState × Response :=
  let (s2, hdrs) := auth_headers env s
  (s2, env.exec (deleteBookingRequest booking_id hdrs))

/-! ## utils/test_data.py -/

/-- The `bookingdates` override accepted by `create_valid_booking`: either a
structured `BookingDates` or a raw key/value dict to be converted. -/
inductive DatesArg where
  | structured : BookingDates → DatesArg
  | raw : List (String × String) → DatesArg
deriving DecidableEq, Repr

/-- The keyword overrides accepted by `create_valid_booking`; `none` means
the keyword was not supplied. -/
structure Overrides where
  firstname : Option String := none
  lastname : Option String := none
  totalprice : Option Int := none
  depositpaid : Option Bool := none
  bookingdates : Option DatesArg := none
  additionalneeds : Option (Option String) := none

/-- `BookingDates(**d)`: keyword-construct a `BookingDates` from a raw dict;
Python raises a `TypeError` unless the keys are exactly `checkin` and
`checkout`. -/
def bookingDatesOfKwargs (d : List (String × String)) :
    Except PyErr BookingDates :=
  match alookup d "checkin", alookup d "checkout" with
  | some ci, some co =>
    if d.length = 2 then .ok ⟨ci, co⟩
    else .error (.typeError "unexpected keyword argument")
  | _, _ => .error (.typeError "missing required argument")

/-- `create_valid_booking(**overrides)`: merge the fixed defaults with the
overrides, converting a raw `bookingdates` dict to `BookingDates`. -/
def create_valid_booking (o : Overrides) : Except PyErr Booking := do
  let dates ← match o.bookingdates.getD
      (.structured ⟨"2025-01-01", "2025-01-10"⟩) with
    | .structured d => pure d
    | .raw kvs => bookingDatesOfKwargs kvs
  pure
    { firstname := o.firstname.getD "John"
      lastname := o.lastname.getD "Doe"
      totalprice := o.totalprice.getD 150
      depositpaid := o.depositpaid.getD true
      bookingdates := dates
      additionalneeds := o.additionalneeds.getD (some "Breakfast") }

/-! # Claims -/

/-- C1: `Booking.to_dict` omits `additionalneeds` when the field is unset and
includes it with its value when set; in both cases the output has exactly the
keys firstname, lastname, totalprice, depositpaid and bookingdates (a nested
mapping with keys checkin and checkout), each bound to the matching field. -/
theorem to_dict_spec (b : Booking) :
    alookup b.to_dict "firstname" = some (.prim (.str b.firstname)) ∧
    alookup b.to_dict "lastname" = some (.prim (.str b.lastname)) ∧
    alookup b.to_dict "totalprice" = some (.prim (.int b.totalprice)) ∧
    alookup b.to_dict "depositpaid" = some (.prim (.bool b.depositpaid)) ∧
    alookup b.to_dict "bookingdates" = some (.obj
      [("checkin", .str b.bookingdates.checkin),
       ("checkout", .str b.bookingdates.checkout)]) ∧
    (b.additionalneeds = none →
      b.to_dict.map Prod.fst =
        ["firstname", "lastname", "totalprice", "depositpaid",
         "bookingdates"]) ∧
    (∀ s, b.additionalneeds = some s →
      b.to_dict.map Prod.fst =
        ["firstname", "lastname", "totalprice", "depositpaid",
         "bookingdates", "additionalneeds"] ∧
      alookup b.to_dict "additionalneeds" = some (.prim (.str s))) := by
  obtain ⟨fn, ln, tp, dp, bd, an⟩ := b
  cases an <;>
    simp [Booking.to_dict, alookup, List.find?, List.map_append] <;> rfl

/-- Witness for C1 at a concrete booking with `additionalneeds` set. -/
theorem to_dict_spec_witness :
    (Booking.mk "Alice" "Smith" 200 true ⟨"2025-03-01", "2025-03-05"⟩
        (some "Lunch")).to_dict.map Prod.fst =
      ["firstname", "lastname", "totalprice", "depositpaid",
       "bookingdates", "additionalneeds"] :=
  ((to_dict_spec _).2.2.2.2.2.2 "Lunch" rfl).1

/-- C7: `assert_response_time` raises an assertion failure exactly when the
elapsed time is not under the threshold and succeeds silently otherwise; the
default threshold is 5 seconds. -/
theorem assert_response_time_spec (elapsed max_seconds : ℚ) :
    (assert_response_time elapsed max_seconds = .ok () ↔
      elapsed < max_seconds) ∧
    (¬ elapsed < max_seconds → ∃ msg,
      assert_response_time elapsed max_seconds =
        .error (.assertionError msg)) ∧
    assert_response_time_default elapsed = assert_response_time elapsed 5 := by
  refine ⟨?_, ?_, rfl⟩
  · unfold assert_response_time
    split <;> simp_all
  · intro h
    unfold assert_response_time
    rw [if_neg h]
    exact ⟨_, rfl⟩

/-- Witness for C7 at elapsed 7 s against the default 5 s threshold. -/
theorem assert_response_time_spec_witness :
    ∃ msg, assert_response_time 7 5 = .error (.assertionError msg) :=
  (assert_response_time_spec 7 5).2.1 (by norm_num)

/-- C10: when the response headers contain no `Content-Type` entry,
`assert_content_type` reads the header as `""`, so it raises an assertion
failure for every non-empty expected substring (in particular the default
`"application/json"`) and succeeds exactly when the expected substring is
empty. -/
theorem assert_content_type_missing_header (headers : List (String × String))
    (h : headersGet headers "Content-Type" = none) (expected : String) :
    (assert_content_type headers expected = .ok () ↔ expected = "") ∧
    (expected ≠ "" → ∃ msg,
      assert_content_type headers expected = .error (.assertionError msg)) := by
  have hct : (headersGet headers "Content-Type").getD "" = "" := by
    rw [h]; rfl
  constructor
  · unfold assert_content_type
    rw [hct]
    constructor
    · intro hok
      by_cases hin : strIn expected ""
      · have := List.eq_nil_of_infix_nil hin
        exact String.ext this
      · rw [if_neg hin] at hok
        exact absurd hok (by simp)
    · rintro rfl
      rw [if_pos ⟨[], [], rfl⟩]
  · intro hne
    unfold assert_content_type
    rw [hct]
    have hin : ¬ strIn expected "" := by
      intro hcontra
      exact hne (String.ext (List.eq_nil_of_infix_nil hcontra))
    rw [if_neg hin]
    exact ⟨_, rfl⟩

/-- Witness for C10: empty header map, default expected value
`"application/json"` fails while the empty expected value succeeds. -/
theorem assert_content_type_missing_header_witness :
    (∃ msg, assert_content_type [] "application/json" =
      .error (.assertionError msg)) ∧
    assert_content_type [] "" = .ok () :=
  ⟨(assert_content_type_missing_header [] rfl "application/json").2
      (by decide),
   (assert_content_type_missing_header [] rfl "").1.mpr rfl⟩

/-- Membership in the contribution of one filter to the query dict. -/
theorem mem_filterParam (name : String) (arg : Option String)
    (k v : String) :
    (k, v) ∈ filterParam name arg ↔
      (k = name ∧ arg = some v ∧ v ≠ "") := by
  cases arg with
  | none => simp [filterParam]
  | some s =>
    by_cases hs : s = ""
    · subst hs
      rw [show filterParam name (some "") = [] from rfl]
      simp only [List.not_mem_nil, false_iff]
      rintro ⟨rfl, hv, hne⟩
      exact hne (Option.some.inj hv).symm
    · simp only [filterParam, if_neg hs, List.mem_singleton, Prod.mk.injEq]
      constructor
      · rintro ⟨rfl, rfl⟩
        exact ⟨rfl, rfl, hs⟩
      · rintro ⟨rfl, hv, _⟩
        exact ⟨rfl, (Option.some.inj hv).symm⟩

/-- C4: `get_booking_ids` sends a GET to `/booking` whose query-parameter
map contains exactly the truthy (present, non-empty) filters, each under its
own name with its given value, and nothing else. -/
theorem get_booking_ids_spec (env : HttpEnv)
    (firstname lastname checkin checkout : Option String) :
    get_booking_ids env firstname lastname checkin checkout =
      env.exec
        { method := "GET"
          path := "/booking"
          body := none
          params := some
            (bookingIdsParams firstname lastname checkin checkout)
          headers := none } ∧
    ∀ k v,
      (k, v) ∈ bookingIdsParams firstname lastname checkin checkout ↔
        ((k = "firstname" ∧ firstname = some v ∧ v ≠ "") ∨
         (k = "lastname" ∧ lastname = some v ∧ v ≠ "") ∨
         (k = "checkin" ∧ checkin = some v ∧ v ≠ "") ∨
         (k = "checkout" ∧ checkout = some v ∧ v ≠ "")) := by
  refine ⟨rfl, fun k v => ?_⟩
  simp [bookingIdsParams, List.mem_append, mem_filterParam, or_assoc]

/-- C3: `auth_headers` returns the single-entry header map binding `Cookie`
to `"token="` followed by the cached token; when no token is cached it first
authenticates, so afterwards the token extracted from the auth response is
cached and carried by the returned header.  The hypothesis states that the
response body of the auth endpoint carries a `token` field. -/
theorem auth_headers_spec (env : HttpEnv) (s : ServiceState) (tv : JValue)
    (htok : alookup (env.exec (authRequest none none)).jsonBody "token" =
      some tv) :
    auth_headers env s =
      ((auth_headers env s).1,
        [("Cookie", "token=" ++ pyStrOpt (auth_headers env s).1.token)]) ∧
    (s.token = none → (auth_headers env s).1.token = some tv) ∧
    (s.token.elim false jTruthy = true → (auth_headers env s).1 = s) := by
  refine ⟨rfl, ?_, ?_⟩
  · intro hnone
    have ht : s.token.elim false jTruthy = false := by rw [hnone]; rfl
    show (auth_headers env s).1.token = some tv
    unfold auth_headers
    rw [ht]
    simpa [authenticate] using htok
  · intro ht
    show (auth_headers env s).1 = s
    simp [auth_headers, ht]

/-- A remote service whose every response carries `{"token": "abc123"}`. -/
def envWithToken : HttpEnv :=
  { exec := fun _ =>
      { status_code := 200
        jsonBody := [("token", .prim (.str "abc123"))]
        elapsed := 1
        headers := [("Content-Type", "application/json")] } }

/-- Witness for C3: starting with no cached token, a read of `auth_headers`
caches the token of the auth response. -/
theorem auth_headers_spec_witness :
    (auth_headers envWithToken ⟨none⟩).1.token =
      some (.prim (.str "abc123")) :=
  (auth_headers_spec envWithToken ⟨none⟩ (.prim (.str "abc123")) rfl).2.1 rfl

/-- C5: every resource-service operation returns the response produced by the
HTTP layer for its request unchanged; `update_booking`,
`partial_update_booking` and `delete_booking` attach the cookie-token auth
headers to their request, while `create_booking` and `get_booking` send no
per-call headers. -/
theorem service_operations_spec (env : HttpEnv) (s : ServiceState)
    (booking_id : Int) (booking : Booking) (data : JDict) :
    create_booking env booking = env.exec (createBookingRequest booking) ∧
    (createBookingRequest booking).headers = none ∧
    get_booking env booking_id = env.exec (getBookingRequest booking_id) ∧
    (getBookingRequest booking_id).headers = none ∧
    update_booking env s booking_id booking =
      ((auth_headers env s).1,
        env.exec (updateBookingRequest booking_id booking
          (auth_headers env s).2)) ∧
    (updateBookingRequest booking_id booking (auth_headers env s).2).headers =
      some (auth_headers env s).2 ∧
    partial_update_booking env s booking_id data =
      ((auth_headers env s).1,
        env.exec (patchBookingRequest booking_id data
          (auth_headers env s).2)) ∧
    (patchBookingRequest booking_id data (auth_headers env s).2).headers =
      some (auth_headers env s).2 ∧
    delete_booking env s booking_id =
      ((auth_headers env s).1,
        env.exec (deleteBookingRequest booking_id (auth_headers env s).2)) ∧
    (deleteBookingRequest booking_id (auth_headers env s).2).headers =
      some (auth_headers env s).2 ∧
    (auth_headers env s).2 = cookieHeader (auth_headers env s).1.token :=
  ⟨rfl, rfl, rfl, rfl, rfl, rfl, rfl, rfl, rfl, rfl, rfl⟩

/-- C8: when the JSON body of the auth response has no `token` field,
`authenticate` caches `None` as the token and returns `None` without raising,
and a subsequent `auth_headers` read against the same response yields
`{"Cookie": "token=None"}`. -/
theorem authenticate_missing_token_spec (env : HttpEnv) (s : ServiceState)
    (h : alookup (env.exec (authRequest none none)).jsonBody "token" = none) :
    authenticate env s none none = (⟨none⟩, none) ∧
    auth_headers env ⟨none⟩ = (⟨none⟩, [("Cookie", "token=None")]) := by
  constructor
  · simp [authenticate, h]
  · simp [auth_headers, authenticate, h, cookieHeader, pyStrOpt,
      Option.elim]

/-- A remote service whose every response has an empty JSON object body. -/
def envNoToken : HttpEnv :=
  { exec := fun _ =>
      { status_code := 200
        jsonBody := []
        elapsed := 1
        headers := [("Content-Type", "application/json")] } }

/-- Witness for C8 against a service whose auth response carries no token. -/
theorem authenticate_missing_token_spec_witness :
    authenticate envNoToken ⟨none⟩ none none = (⟨none⟩, none) ∧
    auth_headers envNoToken ⟨none⟩ = (⟨none⟩, [("Cookie", "token=None")]) :=
  authenticate_missing_token_spec envNoToken ⟨none⟩ rfl

/-- C9: `authenticate` substitutes the configured default username and
password not only when the argument is omitted (`None`) but also when it is
the empty string, so a caller cannot authenticate with explicitly empty
credentials: the posted payload and the whole call coincide with the
defaulted ones. -/
theorem authenticate_empty_credentials_spec (env : HttpEnv)
    (s : ServiceState) (username password : Option String)
    (hu : username = none ∨ username = some "")
    (hp : password = none ∨ password = some "") :
    (authRequest username password).body = some
      [("username", .prim (.str APIConfig.AUTH_USERNAME)),
       ("password", .prim (.str APIConfig.AUTH_PASSWORD))] ∧
    authRequest username password = authRequest none none ∧
    authenticate env s username password = authenticate env s none none := by
  have hu' : orDefault username APIConfig.AUTH_USERNAME =
      APIConfig.AUTH_USERNAME := by
    rcases hu with rfl | rfl <;> simp [orDefault]
  have hp' : orDefault password APIConfig.AUTH_PASSWORD =
      APIConfig.AUTH_PASSWORD := by
    rcases hp with rfl | rfl <;> simp [orDefault]
  have hreq : authRequest username password = authRequest none none := by
    simp only [authRequest, hu', hp']
    rfl
  refine ⟨?_, hreq, ?_⟩
  · rw [hreq]; rfl
  · simp [authenticate, hreq]

/-- Witness for C9: explicitly empty credentials post the configured
defaults. -/
theorem authenticate_empty_credentials_spec_witness :
    (authRequest (some "") (some "")).body = some
      [("username", .prim (.str APIConfig.AUTH_USERNAME)),
       ("password", .prim (.str APIConfig.AUTH_PASSWORD))] :=
  (authenticate_empty_credentials_spec envWithToken ⟨none⟩ (some "") (some "")
    (Or.inr rfl) (Or.inr rfl)).1

/-- C6: `create_valid_booking` builds a `Booking` whose non-overridden fields
take the fixed defaults and whose overridden fields take the supplied values
(`getD` states both at once); a `bookingdates` override given as a raw
key/value dict for the date range is converted to the structured
`BookingDates`, so the resulting `bookingdates` is always structured.  The
hypothesis restricts a raw dict to ones keyword-acceptable to
`BookingDates(**d)`: both date keys present and nothing else. -/
theorem create_valid_booking_spec (o : Overrides)
    (hraw : ∀ kvs, o.bookingdates = some (.raw kvs) →
      (alookup kvs "checkin").isSome ∧ (alookup kvs "checkout").isSome ∧
        kvs.length = 2) :
    ∃ b, create_valid_booking o = .ok b ∧
      b.firstname = o.firstname.getD "John" ∧
      b.lastname = o.lastname.getD "Doe" ∧
      b.totalprice = o.totalprice.getD 150 ∧
      b.depositpaid = o.depositpaid.getD true ∧
      b.additionalneeds = o.additionalneeds.getD (some "Breakfast") ∧
      (o.bookingdates = none →
        b.bookingdates = ⟨"2025-01-01", "2025-01-10"⟩) ∧
      (∀ d, o.bookingdates = some (.structured d) → b.bookingdates = d) ∧
      (∀ kvs ci co, o.bookingdates = some (.raw kvs) →
        alookup kvs "checkin" = some ci → alookup kvs "checkout" = some co →
        b.bookingdates = ⟨ci, co⟩) := by
  cases hbd : o.bookingdates with
  | none =>
    have hok : create_valid_booking o = .ok
        { firstname := o.firstname.getD "John"
          lastname := o.lastname.getD "Doe"
          totalprice := o.totalprice.getD 150
          depositpaid := o.depositpaid.getD true
          bookingdates := ⟨"2025-01-01", "2025-01-10"⟩
          additionalneeds := o.additionalneeds.getD (some "Breakfast") } := by
      unfold create_valid_booking
      rw [hbd]
      rfl
    refine ⟨_, hok, rfl, rfl, rfl, rfl, rfl, fun _ => rfl, ?_, ?_⟩
    · intro d hd; simp at hd
    · intro kvs ci co hk; simp at hk
  | some arg =>
    cases arg with
    | structured d =>
      have hok : create_valid_booking o = .ok
          { firstname := o.firstname.getD "John"
            lastname := o.lastname.getD "Doe"
            totalprice := o.totalprice.getD 150
            depositpaid := o.depositpaid.getD true
            bookingdates := d
            additionalneeds := o.additionalneeds.getD (some "Breakfast") } := by
        unfold create_valid_booking
        rw [hbd]
        rfl
      refine ⟨_, hok, rfl, rfl, rfl, rfl, rfl, ?_, ?_, ?_⟩
      · intro h; simp at h
      · intro d' hd'
        exact DatesArg.structured.inj (Option.some.inj hd')
      · intro kvs ci co hk; simp at hk
    | raw kvs =>
      obtain ⟨hci, hco, hlen⟩ := hraw kvs hbd
      obtain ⟨ci, hci'⟩ := Option.isSome_iff_exists.mp hci
      obtain ⟨co, hco'⟩ := Option.isSome_iff_exists.mp hco
      have hconv : bookingDatesOfKwargs kvs = .ok ⟨ci, co⟩ := by
        unfold bookingDatesOfKwargs
        rw [hci', hco']
        simp [hlen]
      have hok : create_valid_booking o = .ok
          { firstname := o.firstname.getD "John"
            lastname := o.lastname.getD "Doe"
            totalprice := o.totalprice.getD 150
            depositpaid := o.depositpaid.getD true
            bookingdates := ⟨ci, co⟩
            additionalneeds := o.additionalneeds.getD (some "Breakfast") } := by
        unfold create_valid_booking
        rw [hbd]
        show bookingDatesOfKwargs kvs >>= _ = _
        rw [hconv]
        rfl
      refine ⟨_, hok, rfl, rfl, rfl, rfl, rfl, ?_, ?_, ?_⟩
      · intro h; simp at h
      · intro d' hd'; simp at hd'
      · intro kvs' ci' co' hk hci'' hco''
        obtain rfl : kvs = kvs' := DatesArg.raw.inj (Option.some.inj hk)
        rw [hci'] at hci''
        rw [hco'] at hco''
        rw [show BookingDates.mk ci co =
          BookingDates.mk ci' co' from by
            rw [Option.some.inj hci'', Option.some.inj hco'']]

/-- A concrete override set: `firstname` overridden and `bookingdates` given
as a raw key/value dict. -/
def ovEx : Overrides :=
  { firstname := some "Amy"
    bookingdates := some
      (.raw [("checkin", "2025-02-01"), ("checkout", "2025-02-03")]) }

/-- Witness for C6: the overridden fields take the supplied values, the raw
date dict is converted to a structured `BookingDates`, and the rest keep the
defaults. -/
theorem create_valid_booking_spec_witness :
    create_valid_booking ovEx = .ok
      { firstname := "Amy", lastname := "Doe", totalprice := 150,
        depositpaid := true, bookingdates := ⟨"2025-02-01", "2025-02-03"⟩,
        additionalneeds := some "Breakfast" } := by
  obtain ⟨b, hok, hfn, hln, htp, hdp, han, -, -, hrawc⟩ :=
    create_valid_booking_spec ovEx (fun kvs hk => by
      obtain rfl : [("checkin", "2025-02-01"), ("checkout", "2025-02-03")] =
          kvs := DatesArg.raw.inj (Option.some.inj hk)
      exact ⟨by decide, by decide, rfl⟩)
  have hbdv := hrawc [("checkin", "2025-02-01"), ("checkout", "2025-02-03")]
    "2025-02-01" "2025-02-03" rfl (by decide) (by decide)
  have hb : b =
      { firstname := "Amy"
        lastname := "Doe"
        totalprice := 150
        depositpaid := true
        bookingdates := ⟨"2025-02-01", "2025-02-03"⟩
        additionalneeds := some "Breakfast" } := by
    cases b
    simp_all [ovEx]
  rw [hb] at hok
  exact hok

/-- A string is a substring of itself. -/
theorem strIn_self (s : String) : strIn s s := ⟨[], [], by simp⟩

/-- Substring containment extends to the right of a concatenation. -/
theorem strIn_append_right (s t u : String) (h : strIn s t) :
    strIn s (t ++ u) := by
  obtain ⟨p, q, hpq⟩ := h
  exact ⟨p, q ++ u.data, by rw [String.data_append, ← hpq]; simp⟩

/-- Substring containment extends to the left of a concatenation. -/
theorem strIn_append_left (s t u : String) (h : strIn s u) :
    strIn s (t ++ u) := by
  obtain ⟨p, q, hpq⟩ := h
  exact ⟨t.data ++ p, q, by rw [String.data_append, ← hpq]; simp⟩

/-- The general mismatch message names the field, the expected value and the
actual value. -/
theorem fieldMismatchMsg_mentions (k : String) (v a : JValue) :
    strIn k (fieldMismatchMsg k v a) ∧
    strIn (pyStrVal v) (fieldMismatchMsg k v a) ∧
    strIn (pyStrVal a) (fieldMismatchMsg k v a) := by
  unfold fieldMismatchMsg
  refine ⟨?_, ?_, ?_⟩
  · exact strIn_append_right _ _ _ (strIn_append_right _ _ _
      (strIn_append_right _ _ _ (strIn_append_right _ _ _
        (strIn_append_right _ _ _
          (strIn_append_left _ _ _ (strIn_self k))))))
  · exact strIn_append_right _ _ _ (strIn_append_right _ _ _
      (strIn_append_right _ _ _
        (strIn_append_left _ _ _ (strIn_self (pyStrVal v)))))
  · exact strIn_append_right _ _ _
      (strIn_append_left _ _ _ (strIn_self (pyStrVal a)))

/-- The date mismatch message names the `bookingdates` field, the date key,
the expected date and the actual date. -/
theorem datesMismatchMsg_mentions (dk : String) (dv a : JPrim) :
    strIn "bookingdates" (datesMismatchMsg dk dv a) ∧
    strIn dk (datesMismatchMsg dk dv a) ∧
    strIn (pyStrPrim dv) (datesMismatchMsg dk dv a) ∧
    strIn (pyStrPrim a) (datesMismatchMsg dk dv a) := by
  unfold datesMismatchMsg
  refine ⟨?_, ?_, ?_, ?_⟩
  · refine strIn_append_right _ _ _ (strIn_append_right _ _ _
      (strIn_append_right _ _ _ (strIn_append_right _ _ _
        (strIn_append_right _ _ _ ?_))))
    exact strIn_append_right _ _ _
      (show strIn "bookingdates" "Expected bookingdates." by decide)
  · exact strIn_append_right _ _ _ (strIn_append_right _ _ _
      (strIn_append_right _ _ _ (strIn_append_right _ _ _
        (strIn_append_right _ _ _
          (strIn_append_left _ _ _ (strIn_self dk))))))
  · exact strIn_append_right _ _ _ (strIn_append_right _ _ _
      (strIn_append_right _ _ _
        (strIn_append_left _ _ _ (strIn_self (pyStrPrim dv)))))
  · exact strIn_append_right _ _ _
      (strIn_append_left _ _ _ (strIn_self (pyStrPrim a)))

/-- One expected item is booking-shaped against the data: a `bookingdates`
item carries a dict whose date keys all occur in the dict-valued
`bookingdates` of the data; any other key occurs in the data.  Under this shape
every run of `assert_booking_fields` either succeeds or raises an assertion
failure. -/
def ExpectedItemOk (booking_data : JDict) (p : String × JValue) : Prop :=
  if p.1 = "bookingdates" then
    ∃ eds ads, p.2 = JValue.obj eds ∧
      alookup booking_data "bookingdates" = some (JValue.obj ads) ∧
      ∀ q ∈ eds, (alookup ads q.1).isSome
  else (alookup booking_data p.1).isSome

/-- Every expected item is booking-shaped against the data. -/
def ExpectedOk (booking_data : JDict)
    (expected : List (String × JValue)) : Prop :=
  ∀ p ∈ expected, ExpectedItemOk booking_data p

/-- One expected item matches the data: the nested `bookingdates` dict is
compared per date key, the value under any other key is compared directly, with
Python equality. -/
def FieldMatches (booking_data : JDict) (p : String × JValue) : Prop :=
  if p.1 = "bookingdates" then
    ∃ eds ads, p.2 = JValue.obj eds ∧
      alookup booking_data "bookingdates" = some (JValue.obj ads) ∧
      ∀ q ∈ eds, ∃ a, alookup ads q.1 = some a ∧ pyEqPrim a q.2 = true
  else ∃ a, alookup booking_data p.1 = some a ∧ pyEqVal a p.2 = true

/-- Every expected field matches the data. -/
def FieldsMatch (booking_data : JDict)
    (expected : List (String × JValue)) : Prop :=
  ∀ p ∈ expected, FieldMatches booking_data p

/-- `msg` is the mismatch message of a genuine mismatch between the data and
one expected item, and it names the field, the expected value and the actual
value. -/
def DescribesMismatch (booking_data : JDict)
    (expected : List (String × JValue)) (msg : String) : Prop :=
  (∃ k v a, (k, v) ∈ expected ∧ k ≠ "bookingdates" ∧
    alookup booking_data k = some a ∧ pyEqVal a v = false ∧
    msg = fieldMismatchMsg k v a ∧
    strIn k msg ∧ strIn (pyStrVal v) msg ∧ strIn (pyStrVal a) msg) ∨
  (∃ eds ads dk dv a, ("bookingdates", JValue.obj eds) ∈ expected ∧
    (dk, dv) ∈ eds ∧
    alookup booking_data "bookingdates" = some (JValue.obj ads) ∧
    alookup ads dk = some a ∧ pyEqPrim a dv = false ∧
    msg = datesMismatchMsg dk dv a ∧
    strIn "bookingdates" msg ∧ strIn dk msg ∧
    strIn (pyStrPrim dv) msg ∧ strIn (pyStrPrim a) msg)

/-- A mismatch against a suffix of the expected list is a mismatch against
the whole list. -/
theorem DescribesMismatch.mono (booking_data : JDict)
    (p : String × JValue) (rest : List (String × JValue)) (msg : String)
    (h : DescribesMismatch booking_data rest msg) :
    DescribesMismatch booking_data (p :: rest) msg := by
  rcases h with ⟨k, v, a, hmem, hrest⟩ | ⟨eds, ads, dk, dv, a, hmem, hrest⟩
  · exact Or.inl ⟨k, v, a, List.mem_cons_of_mem _ hmem, hrest⟩
  · exact Or.inr ⟨eds, ads, dk, dv, a, List.mem_cons_of_mem _ hmem, hrest⟩

/-- Reduction of an `Except` bind on a success value. -/
theorem except_ok_bind {ε α β : Type} (a : α) (g : α → Except ε β) :
    (Except.ok a >>= g) = g a := rfl

/-- Indexing `booking_data["bookingdates"][date_key]` succeeds when the data
has a dict-valued `bookingdates` carrying the date key. -/
theorem pyIndexDates_ok (booking_data : JDict)
    (ads : List (String × JPrim)) (dk : String) (a : JPrim)
    (hads : alookup booking_data "bookingdates" = some (JValue.obj ads))
    (ha : alookup ads dk = some a) :
    pyIndexDates booking_data dk = .ok a := by
  simp [pyIndexDates, pyIndex, hads, ha, except_ok_bind]

/-- Behaviour of the `bookingdates` inner loop under the shape hypothesis:
it succeeds exactly when the value under every expected date key matches, and any
error it returns is an assertion failure describing a genuine date
mismatch. -/
theorem assertDates_spec (booking_data : JDict)
    (ads : List (String × JPrim))
    (hads : alookup booking_data "bookingdates" = some (JValue.obj ads))
    (eds : List (String × JPrim))
    (hshape : ∀ q ∈ eds, (alookup ads q.1).isSome) :
    (assertDates booking_data eds = .ok () ↔
      ∀ q ∈ eds, ∃ a, alookup ads q.1 = some a ∧ pyEqPrim a q.2 = true) ∧
    (∀ e, assertDates booking_data eds = .error e →
      ∃ dk dv a, (dk, dv) ∈ eds ∧ alookup ads dk = some a ∧
        pyEqPrim a dv = false ∧
        e = .assertionError (datesMismatchMsg dk dv a)) := by
  induction eds with
  | nil =>
    constructor
    · simp [assertDates]
    · intro e he; simp [assertDates] at he
  | cons q rest ih =>
    obtain ⟨dk, dv⟩ := q
    obtain ⟨a, ha⟩ := Option.isSome_iff_exists.mp
      (hshape (dk, dv) (List.mem_cons_self _ _))
    have hpid := pyIndexDates_ok booking_data ads dk a hads ha
    have ihr := ih (fun q hq => hshape q (List.mem_cons_of_mem _ hq))
    by_cases heq : pyEqPrim a dv = true
    · have hstep : assertDates booking_data ((dk, dv) :: rest) =
          assertDates booking_data rest := by
        simp [assertDates, hpid, heq, except_ok_bind]
      constructor
      · rw [hstep, ihr.1]
        constructor
        · intro hall q hq
          rcases List.mem_cons.mp hq with hq1 | hq2
          · subst hq1
            exact ⟨a, ha, heq⟩
          · exact hall q hq2
        · intro hall q hq
          exact hall q (List.mem_cons_of_mem _ hq)
      · intro e he
        rw [hstep] at he
        obtain ⟨dk', dv', a', h1, h2, h3, h4⟩ := ihr.2 e he
        exact ⟨dk', dv', a', List.mem_cons_of_mem _ h1, h2, h3, h4⟩
    · have heq' : pyEqPrim a dv = false := by
        simpa using heq
      have hstep : assertDates booking_data ((dk, dv) :: rest) =
          .error (.assertionError (datesMismatchMsg dk dv a)) := by
        simp [assertDates, hpid, heq', except_ok_bind]
      constructor
      · rw [hstep]
        constructor
        · intro h; cases h
        · intro hall
          obtain ⟨a'', ha'', heq''⟩ :=
            hall (dk, dv) (List.mem_cons_self _ _)
          rw [ha] at ha''
          obtain rfl := Option.some.inj ha''
          rw [heq''] at heq'
          cases heq'
      · intro e he
        rw [hstep] at he
        obtain rfl : PyErr.assertionError (datesMismatchMsg dk dv a) = e :=
          Except.error.inj he
        exact ⟨dk, dv, a, List.mem_cons_self _ _, ha, heq', rfl⟩

/-- `ExpectedItemOk` unfolded at a `bookingdates` item. -/
theorem ExpectedItemOk_dates (booking_data : JDict) (v : JValue) :
    ExpectedItemOk booking_data ("bookingdates", v) ↔
      ∃ eds ads, v = JValue.obj eds ∧
        alookup booking_data "bookingdates" = some (JValue.obj ads) ∧
        ∀ q ∈ eds, (alookup ads q.1).isSome := by
  simp [ExpectedItemOk]

/-- `ExpectedItemOk` unfolded at a non-`bookingdates` item. -/
theorem ExpectedItemOk_of_ne (booking_data : JDict) (k : String)
    (v : JValue) (hk : ¬ k = "bookingdates") :
    ExpectedItemOk booking_data (k, v) ↔
      (alookup booking_data k).isSome := by
  simp [ExpectedItemOk, hk]

/-- `FieldMatches` unfolded at a `bookingdates` item. -/
theorem FieldMatches_dates (booking_data : JDict) (v : JValue) :
    FieldMatches booking_data ("bookingdates", v) ↔
      ∃ eds ads, v = JValue.obj eds ∧
        alookup booking_data "bookingdates" = some (JValue.obj ads) ∧
        ∀ q ∈ eds, ∃ a, alookup ads q.1 = some a ∧ pyEqPrim a q.2 = true := by
  simp [FieldMatches]

/-- `FieldMatches` unfolded at a non-`bookingdates` item. -/
theorem FieldMatches_of_ne (booking_data : JDict) (k : String) (v : JValue)
    (hk : ¬ k = "bookingdates") :
    FieldMatches booking_data (k, v) ↔
      ∃ a, alookup booking_data k = some a ∧ pyEqVal a v = true := by
  simp [FieldMatches, hk]

/-- C2: under the booking shape of data and expectation,
`assert_booking_fields` succeeds exactly when every expected field equals the
data's value for that key — the nested `bookingdates` compared recursively
per date key — and any error it raises is an assertion failure (no other
error kind) whose message names the field, the expected value and the actual
value of a genuine mismatch. -/
theorem assert_booking_fields_spec (booking_data : JDict)
    (expected : List (String × JValue))
    (h : ExpectedOk booking_data expected) :
    (assert_booking_fields booking_data expected = .ok () ↔
      FieldsMatch booking_data expected) ∧
    (∀ e, assert_booking_fields booking_data expected = .error e →
      ∃ msg, e = .assertionError msg ∧
        DescribesMismatch booking_data expected msg) := by
  induction expected with
  | nil =>
    constructor
    · constructor
      · intro _ p hp; cases hp
      · intro _; rfl
    · intro e he; cases he
  | cons p rest ih =>
    obtain ⟨key, value⟩ := p
    have hp := h (key, value) (List.mem_cons_self _ _)
    have hrest : ExpectedOk booking_data rest :=
      fun q hq => h q (List.mem_cons_of_mem _ hq)
    have ihr := ih hrest
    by_cases hkey : key = "bookingdates"
    · subst hkey
      obtain ⟨eds, ads, hval, hads, hshape⟩ :=
        (ExpectedItemOk_dates booking_data value).mp hp
      subst hval
      have hds := assertDates_spec booking_data ads hads eds hshape
      have hunf : assert_booking_fields booking_data
          (("bookingdates", JValue.obj eds) :: rest) =
          (assertDates booking_data eds >>= fun _ =>
            assert_booking_fields booking_data rest) := rfl
      cases had : assertDates booking_data eds with
      | ok u =>
        cases u
        have hstep : assert_booking_fields booking_data
            (("bookingdates", JValue.obj eds) :: rest) =
            assert_booking_fields booking_data rest := by
          rw [hunf, had, except_ok_bind]
        constructor
        · rw [hstep, ihr.1]
          constructor
          · intro hall q hq
            rcases List.mem_cons.mp hq with hq1 | hq2
            · subst hq1
              exact (FieldMatches_dates booking_data _).mpr
                ⟨eds, ads, rfl, hads, hds.1.mp had⟩
            · exact hall q hq2
          · intro hall q hq
            exact hall q (List.mem_cons_of_mem _ hq)
        · intro e he
          rw [hstep] at he
          obtain ⟨msg, hmsg, hdesc⟩ := ihr.2 e he
          exact ⟨msg, hmsg, DescribesMismatch.mono _ _ _ _ hdesc⟩
      | error e0 =>
        have hstep : assert_booking_fields booking_data
            (("bookingdates", JValue.obj eds) :: rest) = .error e0 := by
          rw [hunf, had]; rfl
        obtain ⟨dk, dv, a, hmem, ha, hne, he0⟩ := hds.2 e0 had
        constructor
        · rw [hstep]
          constructor
          · intro hcontra; cases hcontra
          · intro hall
            have hitem := (FieldMatches_dates booking_data _).mp
              (hall ("bookingdates", JValue.obj eds)
                (List.mem_cons_self _ _))
            obtain ⟨eds', ads', hval', hads', hmatch⟩ := hitem
            obtain rfl : eds = eds' := JValue.obj.inj hval'
            rw [hads] at hads'
            obtain rfl : ads = ads' :=
              JValue.obj.inj (Option.some.inj hads')
            obtain ⟨a', ha', heq'⟩ := hmatch (dk, dv) hmem
            rw [ha] at ha'
            obtain rfl := Option.some.inj ha'
            rw [heq'] at hne
            cases hne
        · intro e he
          rw [hstep] at he
          obtain rfl : e0 = e := Except.error.inj he
          refine ⟨datesMismatchMsg dk dv a, he0, Or.inr
            ⟨eds, ads, dk, dv, a, List.mem_cons_self _ _, hmem, hads, ha,
              hne, rfl, (datesMismatchMsg_mentions dk dv a).1,
              (datesMismatchMsg_mentions dk dv a).2.1,
              (datesMismatchMsg_mentions dk dv a).2.2.1,
              (datesMismatchMsg_mentions dk dv a).2.2.2⟩⟩
    · obtain ⟨a, ha⟩ := Option.isSome_iff_exists.mp
        ((ExpectedItemOk_of_ne booking_data key value hkey).mp hp)
      have hpi : pyIndex booking_data key = .ok a := by
        simp [pyIndex, ha]
      have hunf : assert_booking_fields booking_data
          ((key, value) :: rest) =
          (pyIndex booking_data key >>= fun actual =>
            if pyEqVal actual value then
              assert_booking_fields booking_data rest
            else
              .error (.assertionError
                (fieldMismatchMsg key value actual))) := by
        simp [assert_booking_fields, hkey]
      by_cases heq : pyEqVal a value = true
      · have hstep : assert_booking_fields booking_data
            ((key, value) :: rest) =
            assert_booking_fields booking_data rest := by
          rw [hunf, hpi, except_ok_bind, if_pos heq]
        constructor
        · rw [hstep, ihr.1]
          constructor
          · intro hall q hq
            rcases List.mem_cons.mp hq with hq1 | hq2
            · subst hq1
              exact (FieldMatches_of_ne booking_data key value hkey).mpr
                ⟨a, ha, heq⟩
            · exact hall q hq2
          · intro hall q hq
            exact hall q (List.mem_cons_of_mem _ hq)
        · intro e he
          rw [hstep] at he
          obtain ⟨msg, hmsg, hdesc⟩ := ihr.2 e he
          exact ⟨msg, hmsg, DescribesMismatch.mono _ _ _ _ hdesc⟩
      · have heq' : pyEqVal a value = false := by
          simpa using heq
        have hstep : assert_booking_fields booking_data
            ((key, value) :: rest) =
            .error (.assertionError (fieldMismatchMsg key value a)) := by
          rw [hunf, hpi, except_ok_bind, if_neg heq]
        constructor
        · rw [hstep]
          constructor
          · intro hcontra; cases hcontra
          · intro hall
            have hitem := (FieldMatches_of_ne booking_data key value
              hkey).mp (hall (key, value) (List.mem_cons_self _ _))
            obtain ⟨a', ha', heqq⟩ := hitem
            rw [ha] at ha'
            obtain rfl := Option.some.inj ha'
            rw [heqq] at heq'
            cases heq'
        · intro e he
          rw [hstep] at he
          obtain rfl : PyErr.assertionError (fieldMismatchMsg key value a)
              = e := Except.error.inj he
          refine ⟨fieldMismatchMsg key value a, rfl, Or.inl
            ⟨key, value, a, List.mem_cons_self _ _, hkey, ha, heq', rfl,
              (fieldMismatchMsg_mentions key value a).1,
              (fieldMismatchMsg_mentions key value a).2.1,
              (fieldMismatchMsg_mentions key value a).2.2⟩⟩

/-- A concrete booking-shaped response dict. -/
def bdEx : JDict :=
  [("firstname", .prim (.str "John")),
   ("lastname", .prim (.str "Doe")),
   ("bookingdates", .obj
     [("checkin", .str "2025-01-01"), ("checkout", .str "2025-01-10")])]

/-- A concrete expected field subset for `bdEx`, with a nested date key. -/
def expEx : List (String × JValue) :=
  [("firstname", .prim (.str "John")),
   ("bookingdates", .obj [("checkin", .str "2025-01-01")])]

/-- Witness for C2: on a concrete booking dict and expectation the checker
returns success, so by the specification every expected field matches. -/
theorem assert_booking_fields_spec_witness : FieldsMatch bdEx expEx :=
  (assert_booking_fields_spec bdEx expEx (by
    intro p hp
    rcases List.mem_cons.mp hp with rfl | hp2
    · exact (ExpectedItemOk_of_ne _ _ _ (by decide)).mpr (by decide)
    rcases List.mem_cons.mp hp2 with rfl | hp3
    · exact (ExpectedItemOk_dates _ _).mpr
        ⟨[("checkin", .str "2025-01-01")],
         [("checkin", .str "2025-01-01"), ("checkout", .str "2025-01-10")],
         rfl, by decide, by decide⟩
    · cases hp3)).1.mp rfl
